import Mathlib

/-!
Verification of the order-workflow core of a restaurant ordering backend
(Django REST application `APIsapp`). The data model follows `models.py`,
the operations follow the view methods of `views.py`, and the permission
checks follow `permissions.py`. Prices are modelled in hundredths of the
currency unit (the source uses a two-decimal-place field), so 10.00 is
written 1000.
-/

namespace Restaurant

/-- `django.contrib.auth.models.User`: the fields the application reads are
the primary key, the group memberships (by group name) and the staff flag. -/
structure User where
  id : Nat
  groups : List String
  is_staff : Bool
deriving DecidableEq, Repr

/-- `user.groups.filter(name=g).exists()` -/
def inGroup (u : User) (g : String) : Bool :=
  u.groups.contains g

/-- `models.MenuItem`: title is irrelevant to the workflow; `price` is the
two-decimal field stored in hundredths. -/
structure MenuItem where
  id : Nat
  price : Nat
deriving DecidableEq, Repr

/-- `models.Cart`: one row per add-to-cart, holding a user FK, a menu-item
FK and a positive quantity. FKs are stored as primary keys. -/
structure Cart where
  id : Nat
  user : Nat
  menuitem : Nat
  quantity : Nat
deriving DecidableEq, Repr

/-- `models.Order`: `status` is the Boolean of the source
(`False` = placed, `True` = delivered); `delivery_crew` is nullable. -/
structure Order where
  id : Nat
  user : Nat
  delivery_crew : Option Nat
  status : Bool
  total : Nat
deriving DecidableEq, Repr

/-- `models.OrderItem`: a line of an order, copying menu item and quantity. -/
structure OrderItem where
  id : Nat
  order : Nat
  menuitem : Nat
  quantity : Nat
deriving DecidableEq, Repr

/-- The persistent store the views execute against: the tables of the five
models plus the auth users, and the auto-increment counters the ORM keeps. -/
structure Store where
  users : List User
  menuitems : List MenuItem
  carts : List Cart
  orders : List Order
  orderitems : List OrderItem
  nextOrderId : Nat
  nextOrderItemId : Nat
  nextCartId : Nat
deriving DecidableEq, Repr

/-- `Cart.objects.filter(user=user)` -/
def userCarts (s : Store) (uid : Nat) : List Cart :=
  s.carts.filter (fun c => c.user == uid)

/-- Resolving a menu-item FK: `item.menuitem`. Under referential integrity
the lookup always succeeds; the default is never reached. -/
def priceOf (s : Store) (mid : Nat) : Nat :=
  (((s.menuitems.find? (fun m => m.id == mid)).map MenuItem.price).getD 0)

/-- `order.save()` after mutating the row with primary key `pk`. -/
def updateOrder (s : Store) (pk : Nat) (f : Order → Order) : Store :=
  { s with orders := s.orders.map (fun o => if o.id == pk then f o else o) }

/-- `Order.objects.get`-style lookup inside a queryset. -/
def findOrder (os : List Order) (pk : Nat) : Option Order :=
  os.find? (fun o => o.id == pk)

/-- `User.objects.get(pk=...)` -/
def findUser (s : Store) (pk : Nat) : Option User :=
  s.users.find? (fun u => u.id == pk)

namespace OrderViewSet

/-- `OrderViewSet.get_queryset`: Manager group or staff flag see all orders;
otherwise the Delivery crew group sees orders assigned to them; otherwise a
user sees their own orders. -/
def get_queryset (s : Store) (u : User) : List Order :=
  if inGroup u "Manager" || u.is_staff then
    s.orders
  else if inGroup u "Delivery crew" then
    s.orders.filter (fun o => o.delivery_crew == some u.id)
  else
    s.orders.filter (fun o => o.user == u.id)

/-- Outcome of `OrderViewSet.create_from_cart`. -/
inductive CFCResult where
  | emptyCart
  | created (orderId : Nat)
deriving DecidableEq, Repr

/-- `OrderViewSet.create_from_cart`, run to completion: on an empty cart a
400 response and no change; otherwise a fresh order for the caller with
default fields, one `OrderItem` per cart row copying menu item and quantity,
the total set to the price-weighted sum, and the caller's cart rows deleted. -/
def create_from_cart (s : Store) (uid : Nat) : CFCResult × Store :=
  let cart_items := userCarts s uid
  if cart_items.isEmpty then
    (.emptyCart, s)
  else
    let oid := s.nextOrderId
    let newItems := (List.range cart_items.length).zip cart_items |>.map
      (fun p => OrderItem.mk (s.nextOrderItemId + p.1) oid p.2.menuitem p.2.quantity)
    let total := (cart_items.map (fun c => priceOf s c.menuitem * c.quantity)).sum
    let order : Order := ⟨oid, uid, none, false, total⟩
    (.created oid,
      { s with
          orders := s.orders ++ [order]
          orderitems := s.orderitems ++ newItems
          carts := s.carts.filter (fun c => !(c.user == uid))
          nextOrderId := oid + 1
          nextOrderItemId := s.nextOrderItemId + cart_items.length })

/-- The stores committed one ORM write at a time during
`create_from_cart` on a non-empty cart: the source wraps none of the writes
in a transaction (Django autocommit), so after `Order.objects.create`, after
each `OrderItem.objects.create`, after `order.save()` and after
`cart_items.delete()` the store below is durable and observable. The list is
empty on an empty cart (no write happens). -/
def create_from_cart_states (s : Store) (uid : Nat) : List Store :=
  let cart_items := userCarts s uid
  if cart_items.isEmpty then
    []
  else
    let oid := s.nextOrderId
    let order0 : Order := ⟨oid, uid, none, false, 0⟩
    let afterOrder := { s with
      orders := s.orders ++ [order0], nextOrderId := oid + 1 }
    let itemStates := (List.range cart_items.length).map (fun k =>
      { afterOrder with
          orderitems := afterOrder.orderitems ++
            (((List.range (k + 1)).zip cart_items).map
              (fun p => OrderItem.mk (s.nextOrderItemId + p.1) oid p.2.menuitem p.2.quantity))
          nextOrderItemId := s.nextOrderItemId + (k + 1) })
    let total := (cart_items.map (fun c => priceOf s c.menuitem * c.quantity)).sum
    let afterItems := { afterOrder with
      orderitems := afterOrder.orderitems ++
        (((List.range cart_items.length).zip cart_items).map
          (fun p => OrderItem.mk (s.nextOrderItemId + p.1) oid p.2.menuitem p.2.quantity))
      nextOrderItemId := s.nextOrderItemId + cart_items.length }
    let afterSave := updateOrder afterItems oid (fun o => { o with total := total })
    let afterDelete := { afterSave with
      carts := afterSave.carts.filter (fun c => !(c.user == uid)) }
    [afterOrder] ++ itemStates ++ [afterSave, afterDelete]

/-- Outcome of `OrderViewSet.assign_order`. -/
inductive AssignResult where
  | forbidden
  | orderNotFound
  | missingId
  | userNotFound
  | alreadyAssigned
  | notDeliveryCrew
  | selfAssignment
  | assigned
deriving DecidableEq, Repr

/-- `OrderViewSet.assign_order` guarded by `IsManager`: permission check,
`get_object` within the caller's queryset, presence of `delivery_crew_id`,
user lookup, already-assigned check, Delivery-crew-group check,
self-assignment check, then the single write. -/
def assign_order (s : Store) (caller : User) (pk : Nat)
    (delivery_crew_id : Option Nat) : AssignResult × Store :=
  if !(inGroup caller "Manager") then
    (.forbidden, s)
  else
    match findOrder (get_queryset s caller) pk with
    | none => (.orderNotFound, s)
    | some order =>
      match delivery_crew_id with
      | none => (.missingId, s)
      | some did =>
        match findUser s did with
        | none => (.userNotFound, s)
        | some delivery_user =>
          if order.delivery_crew.isSome then
            (.alreadyAssigned, s)
          else if !(inGroup delivery_user "Delivery crew") then
            (.notDeliveryCrew, s)
          else if delivery_user.id == caller.id then
            (.selfAssignment, s)
          else
            (.assigned, updateOrder s pk (fun o => { o with delivery_crew := some did }))

/-- Outcome of `OrderViewSet.mark_delivered`. -/
inductive DeliverResult where
  | forbidden
  | orderNotFound
  | alreadyDelivered
  | delivered
deriving DecidableEq, Repr

/-- `OrderViewSet.mark_delivered` guarded by `IsDeliveryCrew`: permission
check, `get_object` within the caller's queryset, already-delivered warning,
then the single status write. -/
def mark_delivered (s : Store) (caller : User) (pk : Nat) :
    DeliverResult × Store :=
  if !(inGroup caller "Delivery crew") then
    (.forbidden, s)
  else
    match findOrder (get_queryset s caller) pk with
    | none => (.orderNotFound, s)
    | some order =>
      if order.status then
        (.alreadyDelivered, s)
      else
        (.delivered, updateOrder s pk (fun o => { o with status := true }))

end OrderViewSet

namespace CartViewSet

/-- `CartViewSet` create: the serializer validates that `menuitem_id`
resolves and that `quantity` is a positive integer; `perform_create` then
saves a fresh `Cart` row bound to the requesting user. `none` is the
serializer rejecting the input. -/
def perform_create (s : Store) (uid : Nat) (mid : Nat) (qty : Nat) :
    Option Store :=
  if (s.menuitems.find? (fun m => m.id == mid)).isSome && decide (0 < qty) then
    some { s with
      carts := s.carts ++ [⟨s.nextCartId, uid, mid, qty⟩]
      nextCartId := s.nextCartId + 1 }
  else
    none

end CartViewSet

namespace UserViewSet

/-- Outcome of `UserViewSet.list`. -/
inductive ListUsersResult where
  | forbidden
  | ok (us : List User)
deriving DecidableEq, Repr

/-- `UserViewSet.list`: requires membership in the Admin or Manager group
(by group name), else a 403; on success returns all users. -/
def list (s : Store) (caller : User) : ListUsersResult :=
  if !(inGroup caller "Admin" || inGroup caller "Manager") then
    .forbidden
  else
    .ok s.users

/-- Outcome of `UserViewSet.assign_order`. -/
inductive AdminAssignResult where
  | forbidden
  | lookupFailed
  | assigned
deriving DecidableEq, Repr

/-- `UserViewSet.assign_order` guarded by `IsManager`: looks the order up
globally (`Order.objects.get(id=order_id)`) and the target user up by `pk`,
then writes `delivery_crew` unconditionally — no already-assigned check, no
Delivery-crew-group check, no self check. A failing `.get` raises
(modelled as `lookupFailed`). -/
def assign_order (s : Store) (caller : User) (pk : Nat) (order_id : Nat) :
    AdminAssignResult × Store :=
  if !(inGroup caller "Manager") then
    (.forbidden, s)
  else
    match findOrder s.orders order_id, findUser s pk with
    | some _, some target =>
      (.assigned, updateOrder s order_id (fun o => { o with delivery_crew := some target.id }))
    | _, _ => (.lookupFailed, s)

end UserViewSet

/-! Concrete fixtures: a manager, two delivery-crew members, a customer, a
staff-flagged principal with no groups; two menu items (10.00 and 5.00,
stored in hundredths); the customer's cart holding item 1 twice and item 2
once; and three orders (one unassigned placed order of the customer, one
assigned to crew 2, one delivered order assigned to crew 3). -/

def mgrU : User := ⟨1, ["Manager"], false⟩

def crewA : User := ⟨2, ["Delivery crew"], false⟩

def crewB : User := ⟨3, ["Delivery crew"], false⟩

def custU : User := ⟨4, [], false⟩

def staffU : User := ⟨5, [], true⟩

def fx : Store where
  users := [mgrU, crewA, crewB, custU, staffU]
  menuitems := [⟨1, 1000⟩, ⟨2, 500⟩]
  carts := [⟨1, 4, 1, 2⟩, ⟨2, 4, 2, 1⟩]
  orders := [⟨1, 4, none, false, 2500⟩, ⟨2, 4, some 2, false, 100⟩,
             ⟨3, 1, some 3, true, 200⟩]
  orderitems := []
  nextOrderId := 4
  nextOrderItemId := 1
  nextCartId := 3

/-! Helper lemmas about lookups in an updated order table. -/

theorem findOrder_map_guard (l : List Order) (pk : Nat) (f : Order → Order)
    (hf : ∀ o, (f o).id = o.id) :
    findOrder (l.map (fun o => if o.id == pk then f o else o)) pk
      = (findOrder l pk).map (fun o => if o.id == pk then f o else o) := by
  unfold findOrder
  rw [List.find?_map]
  have hp : ((fun o : Order => o.id == pk) ∘ fun o => if o.id == pk then f o else o)
      = fun o : Order => o.id == pk := by
    funext o
    by_cases h : o.id == pk
    · simp [Function.comp, h, hf]
    · simp [Function.comp, h]
  rw [hp]

theorem get_queryset_update (s : Store) (u : User) (pk : Nat)
    (f : Order → Order)
    (hd : ∀ o, (f o).delivery_crew = o.delivery_crew)
    (hu : ∀ o, (f o).user = o.user) :
    OrderViewSet.get_queryset (updateOrder s pk f) u
      = (OrderViewSet.get_queryset s u).map
          (fun o => if o.id == pk then f o else o) := by
  unfold OrderViewSet.get_queryset updateOrder
  by_cases h1 : inGroup u "Manager" || u.is_staff
  · simp [h1]
  · by_cases h2 : inGroup u "Delivery crew"
    · simp only [h1, h2, if_true, if_false, Bool.false_eq_true]
      rw [List.filter_map]
      have hp : ((fun o : Order => o.delivery_crew == some u.id)
            ∘ fun o => if o.id == pk then f o else o)
          = fun o : Order => o.delivery_crew == some u.id := by
        funext o
        by_cases h : o.id == pk
        · simp [Function.comp, h, hd]
        · simp [Function.comp, h]
      rw [hp]
    · simp only [h1, h2, if_false, Bool.false_eq_true]
      rw [List.filter_map]
      have hp : ((fun o : Order => o.user == u.id)
            ∘ fun o => if o.id == pk then f o else o)
          = fun o : Order => o.user == u.id := by
        funext o
        by_cases h : o.id == pk
        · simp [Function.comp, h, hu]
        · simp [Function.comp, h]
      rw [hp]

theorem forall₂_map_self {P : Order → Order → Prop} (g : Order → Order)
    (l : List Order) (h : ∀ o, P o (g o)) :
    List.Forall₂ P l (l.map g) := by
  induction l with
  | nil => exact .nil
  | cons a t ih => exact .cons (h a) ih

theorem zip_range_map_snd {α : Type} (cs : List Cart) (g : Cart → α) :
    ((List.range cs.length).zip cs).map (fun p => g p.2) = cs.map g := by
  have h1 : ((List.range cs.length).zip cs).map (fun p => g p.2)
      = (((List.range cs.length).zip cs).map Prod.snd).map g := by
    rw [List.map_map]; rfl
  rw [h1, List.map_snd_zip _ _ (by simp)]

/-- Claim C1: for every principal with a non-empty cart, `create_from_cart`
creates exactly one new order owned by that principal with status placed,
no delivery assignee, and total equal to the price-weighted sum over the
cart lines at current prices; one order line is created per cart line,
copying menu item and quantity; afterwards the principal's cart is empty. -/
theorem createFromCart_converts_cart (s : Store) (uid : Nat)
    (h : userCarts s uid ≠ []) :
    (OrderViewSet.create_from_cart s uid).1
      = OrderViewSet.CFCResult.created s.nextOrderId ∧
    (OrderViewSet.create_from_cart s uid).2.orders
      = s.orders ++ [Order.mk s.nextOrderId uid none false
          (((userCarts s uid).map (fun c => priceOf s c.menuitem * c.quantity)).sum)] ∧
    (∃ newItems : List OrderItem,
      (OrderViewSet.create_from_cart s uid).2.orderitems
        = s.orderitems ++ newItems ∧
      newItems.map (fun it => (it.order, it.menuitem, it.quantity))
        = (userCarts s uid).map (fun c => (s.nextOrderId, c.menuitem, c.quantity))) ∧
    userCarts (OrderViewSet.create_from_cart s uid).2 uid = [] := by
  have hne : (userCarts s uid).isEmpty = false := by
    cases he : (userCarts s uid).isEmpty with
    | false => rfl
    | true => exact absurd (by simpa using he) h
  refine ⟨?_, ?_, ?_, ?_⟩
  · simp [OrderViewSet.create_from_cart, hne]
  · simp [OrderViewSet.create_from_cart, hne]
  · refine ⟨((List.range (userCarts s uid).length).zip (userCarts s uid)).map
      (fun p => OrderItem.mk (s.nextOrderItemId + p.1) s.nextOrderId
        p.2.menuitem p.2.quantity), ?_, ?_⟩
    · simp [OrderViewSet.create_from_cart, hne]
    · rw [List.map_map]
      exact zip_range_map_snd (userCarts s uid)
        (fun c => (s.nextOrderId, c.menuitem, c.quantity))
  · have hst : (OrderViewSet.create_from_cart s uid).2.carts
        = s.carts.filter (fun c => !(c.user == uid)) := by
      simp [OrderViewSet.create_from_cart, hne]
    unfold userCarts
    rw [hst, List.filter_filter]
    have hp : (fun (a : Cart) => (a.user == uid) && !(a.user == uid))
        = fun _ => false := by
      funext a
      cases hb : a.user == uid <;> simp [hb]
    rw [hp]
    simp

/-- Witness for C1: converting the fixture cart (item 1 at 10.00 twice and
item 2 at 5.00 once) yields the new order 4 for user 4, placed, unassigned,
with total 25.00, and user 4's cart is empty afterwards. -/
theorem createFromCart_converts_cart_witness :
    userCarts fx 4 ≠ [] ∧
    (OrderViewSet.create_from_cart fx 4).1
      = OrderViewSet.CFCResult.created 4 ∧
    (OrderViewSet.create_from_cart fx 4).2.orders
      = fx.orders ++ [Order.mk 4 4 none false 2500] ∧
    userCarts (OrderViewSet.create_from_cart fx 4).2 4 = [] := by
  have h := createFromCart_converts_cart fx 4 (by decide)
  exact ⟨by decide, h.1, h.2.1, h.2.2.2⟩

/-- Claim C6: role-scoped order visibility — a caller holding Manager (by
group) or Admin (staff flag) sees all orders; a Delivery-crew caller who is
neither sees exactly the orders assigned to them; any other caller sees
exactly their own orders. Manager/Admin takes precedence over Delivery crew,
which takes precedence over owner scoping. -/
theorem listVisible_role_scoping (s : Store) (u : User) :
    ((inGroup u "Manager" = true ∨ u.is_staff = true) →
      OrderViewSet.get_queryset s u = s.orders) ∧
    (inGroup u "Manager" = false → u.is_staff = false →
      inGroup u "Delivery crew" = true →
      ∀ o : Order, o ∈ OrderViewSet.get_queryset s u ↔
        o ∈ s.orders ∧ o.delivery_crew = some u.id) ∧
    (inGroup u "Manager" = false → u.is_staff = false →
      inGroup u "Delivery crew" = false →
      ∀ o : Order, o ∈ OrderViewSet.get_queryset s u ↔
        o ∈ s.orders ∧ o.user = u.id) := by
  refine ⟨?_, ?_, ?_⟩
  · intro h
    cases h with
    | inl hm => simp [OrderViewSet.get_queryset, hm]
    | inr hs => simp [OrderViewSet.get_queryset, hs]
  · intro hm hs hc o
    simp [OrderViewSet.get_queryset, hm, hs, hc, List.mem_filter, beq_iff_eq]
  · intro hm hs hc o
    simp [OrderViewSet.get_queryset, hm, hs, hc, List.mem_filter, beq_iff_eq]

/-- Witness for C6 on the three-order fixture: the manager and the
staff-flagged principal see all orders; delivery-crew user 2 sees the order
assigned to them and not the unassigned one; customer 4 sees their own
order and not the one owned by user 1. -/
theorem listVisible_role_scoping_witness :
    OrderViewSet.get_queryset fx mgrU = fx.orders ∧
    OrderViewSet.get_queryset fx staffU = fx.orders ∧
    (Order.mk 2 4 (some 2) false 100 ∈ OrderViewSet.get_queryset fx crewA ∧
      Order.mk 1 4 none false 2500 ∉ OrderViewSet.get_queryset fx crewA) ∧
    (Order.mk 1 4 none false 2500 ∈ OrderViewSet.get_queryset fx custU ∧
      Order.mk 3 1 (some 3) true 200 ∉ OrderViewSet.get_queryset fx custU) := by
  have h1 := (listVisible_role_scoping fx mgrU).1 (Or.inl (by decide))
  have h2 := (listVisible_role_scoping fx staffU).1 (Or.inr (by decide))
  have h3 := (listVisible_role_scoping fx crewA).2.1 (by decide) (by decide)
    (by decide)
  have h4 := (listVisible_role_scoping fx custU).2.2 (by decide) (by decide)
    (by decide)
  refine ⟨h1, h2, ⟨(h3 _).mpr (by decide), ?_⟩, (h4 _).mpr (by decide), ?_⟩
  · intro hmem
    exact absurd ((h3 _).mp hmem) (by decide)
  · intro hmem
    exact absurd ((h4 _).mp hmem) (by decide)

/-- Claim C9: a caller holding Delivery crew but neither Manager group
membership nor the staff flag can only mark orders assigned to themselves:
for an order id whose every occurrence in the store is assigned to someone
else or unassigned, `mark_delivered` is a not-found outcome and the store —
in particular every order's status — is unchanged. -/
theorem markDelivered_scoped_lookup (s : Store) (caller : User) (pk : Nat)
    (h1 : inGroup caller "Delivery crew" = true)
    (h2 : inGroup caller "Manager" = false)
    (h3 : caller.is_staff = false)
    (h4 : ∀ o ∈ s.orders, o.id = pk → o.delivery_crew ≠ some caller.id) :
    OrderViewSet.mark_delivered s caller pk
      = (OrderViewSet.DeliverResult.orderNotFound, s) := by
  have hq : OrderViewSet.get_queryset s caller
      = s.orders.filter (fun o => o.delivery_crew == some caller.id) := by
    simp [OrderViewSet.get_queryset, h1, h2, h3]
  have hfind : findOrder (OrderViewSet.get_queryset s caller) pk = none := by
    rw [hq]
    unfold findOrder
    rw [List.find?_eq_none]
    intro x hx
    have hmem := List.mem_filter.mp hx
    have hcrew : x.delivery_crew = some caller.id := beq_iff_eq.mp hmem.2
    intro hid
    exact h4 x hmem.1 (beq_iff_eq.mp hid) hcrew
  simp [OrderViewSet.mark_delivered, h1, hfind]

/-- Witness for C9: delivery-crew user 2 attempts to mark order 1 (which is
unassigned in the fixture) as delivered and gets the not-found outcome with
the store untouched. -/
theorem markDelivered_scoped_lookup_witness :
    OrderViewSet.mark_delivered fx crewA 1
      = (OrderViewSet.DeliverResult.orderNotFound, fx) :=
  markDelivered_scoped_lookup fx crewA 1 (by decide) (by decide) (by decide)
    (by decide)

/-- Claim C5: for every principal whose cart has no lines, `create_from_cart`
fails with the empty-cart error and the store is completely unchanged: no
order, no order line, and no cart of any principal is touched. -/
theorem createFromCart_empty_cart (s : Store) (uid : Nat)
    (h : userCarts s uid = []) :
    OrderViewSet.create_from_cart s uid = (.emptyCart, s) := by
  simp [OrderViewSet.create_from_cart, h]

/-- Witness for C5: principal 7 has no cart lines in the fixture, and the
conversion returns the empty-cart error leaving the fixture store intact. -/
theorem createFromCart_empty_cart_witness :
    userCarts fx 7 = [] ∧
    OrderViewSet.create_from_cart fx 7 = (.emptyCart, fx) :=
  ⟨by decide, createFromCart_empty_cart fx 7 (by decide)⟩

/-- Claim C10: the Admin role is resolved inconsistently — order visibility
treats any staff-flagged principal as Admin, while the user list requires
membership in the Admin (or Manager) group; a staff-flagged principal with
no group memberships sees every order yet is forbidden to list users. -/
theorem admin_role_inconsistency (s : Store) (u : User)
    (hstaff : u.is_staff = true) (hgroups : u.groups = []) :
    OrderViewSet.get_queryset s u = s.orders ∧
    UserViewSet.list s u = .forbidden := by
  have hg : ∀ g, inGroup u g = false := by
    intro g; simp [inGroup, hgroups]
  constructor
  · simp [OrderViewSet.get_queryset, hstaff]
  · simp [UserViewSet.list, hg]

/-- Witness for C10: the staff-flagged, group-less fixture principal sees
all three fixture orders but gets a 403 from the user list. -/
theorem admin_role_inconsistency_witness :
    OrderViewSet.get_queryset fx staffU = fx.orders ∧
    UserViewSet.list fx staffU = .forbidden :=
  admin_role_inconsistency fx staffU (by decide) (by decide)

/-- Counterexample to C2: in the fixture, order 2 already has
delivery_crew = user 2, yet the administrative `UserViewSet.assign_order`
path rewrites it to user 3 — so a set delivery_assignee IS changed by a
later operation. -/
theorem delivery_assignee_reassigned_by_admin_path :
    (findOrder fx.orders 2).map Order.delivery_crew = some (some 2) ∧
    (findOrder (UserViewSet.assign_order fx mgrU 3 2).2.orders 2).map
      Order.delivery_crew = some (some 3) := by
  decide

/-- Claim C2 (amended): once an order's delivery_assignee is set, the guarded
`OrderViewSet.assign_order` path never changes it and never succeeds again
(the call leaves the store unchanged); the administrative
`UserViewSet.assign_order` path, however, can overwrite it. -/
theorem guarded_assign_single_shot (s : Store) (caller : User) (pk : Nat)
    (dcid : Option Nat) (o : Order)
    (ho : findOrder (OrderViewSet.get_queryset s caller) pk = some o)
    (hset : o.delivery_crew.isSome = true) :
    (OrderViewSet.assign_order s caller pk dcid).2 = s ∧
    (OrderViewSet.assign_order s caller pk dcid).1
      ≠ OrderViewSet.AssignResult.assigned := by
  by_cases hm : inGroup caller "Manager"
  · cases dcid with
    | none => simp [OrderViewSet.assign_order, hm, ho]
    | some did =>
      cases hu : findUser s did with
      | none => simp [OrderViewSet.assign_order, hm, ho, hu]
      | some u => simp [OrderViewSet.assign_order, hm, ho, hu, hset]
  · simp [OrderViewSet.assign_order, hm]

/-- Witness for the amended C2: order 2 of the fixture is assigned, and a
guarded re-assignment attempt by the manager leaves the store unchanged and
does not succeed. -/
theorem guarded_assign_single_shot_witness :
    (OrderViewSet.assign_order fx mgrU 2 (some 3)).2 = fx ∧
    (OrderViewSet.assign_order fx mgrU 2 (some 3)).1
      ≠ OrderViewSet.AssignResult.assigned :=
  guarded_assign_single_shot fx mgrU 2 (some 3) ⟨2, 4, some 2, false, 100⟩
    (by decide) (by decide)

/-- Claim C4: the conversion is NOT atomic — the source commits each ORM
write separately (no transaction), so among the durably committed
intermediate stores of `create_from_cart` on the fixture there is one in
which the new order already exists while the owner's cart still has lines. -/
theorem createFromCart_not_atomic :
    ∃ st ∈ OrderViewSet.create_from_cart_states fx 4,
      (∃ o ∈ st.orders, o.id = fx.nextOrderId ∧ o.user = 4) ∧
      userCarts st 4 ≠ [] := by
  decide

/-- Counterexample to C8: user 4's cart already holds a line for menu item 1,
and adding (menu item 1, quantity 3) leaves TWO lines for that item in the
cart rather than a single updated one. -/
theorem cart_add_duplicates_line :
    (CartViewSet.perform_create fx 4 1 3).map
      (fun s2 => ((userCarts s2 4).filter (fun c => c.menuitem == 1)).length)
        = some 2 ∧
    (CartViewSet.perform_create fx 4 1 3).map
      (fun s2 => ((userCarts s2 4).filter (fun c => c.menuitem == 1)).length)
        ≠ some 1 := by
  decide

/-- Claim C8 (amended): given a positive quantity and an existing menu item,
the cart-add operation always appends a fresh CartLine for
(owner, menuitem_id, quantity); an existing line for the same (owner,
menuitem) is not updated, so lines for that pair accumulate (the count for
the pair grows by one). -/
theorem cart_add_appends_line (s : Store) (uid mid qty : Nat)
    (hmenu : (s.menuitems.find? (fun m => m.id == mid)).isSome = true)
    (hqty : 0 < qty) :
    ∃ s2, CartViewSet.perform_create s uid mid qty = some s2 ∧
      userCarts s2 uid = userCarts s uid ++ [⟨s.nextCartId, uid, mid, qty⟩] ∧
      ((userCarts s2 uid).filter (fun c => c.menuitem == mid)).length
        = ((userCarts s uid).filter (fun c => c.menuitem == mid)).length + 1 := by
  refine ⟨{ s with carts := s.carts ++ [Cart.mk s.nextCartId uid mid qty], nextCartId := s.nextCartId + 1 }, ?_, ?_, ?_⟩
  · simp [CartViewSet.perform_create, hmenu, hqty]
  · unfold userCarts
    simp [List.filter_append]
  · unfold userCarts
    simp [List.filter_append]

/-- Witness for the amended C8: adding (menu item 1, quantity 3) for user 4
appends a third cart line, and the line count for menu item 1 goes from one
to two. -/
theorem cart_add_appends_line_witness :
    ∃ s2, CartViewSet.perform_create fx 4 1 3 = some s2 ∧
      userCarts s2 4 = userCarts fx 4 ++ [⟨fx.nextCartId, 4, 1, 3⟩] ∧
      ((userCarts s2 4).filter (fun c => c.menuitem == 1)).length
        = ((userCarts fx 4).filter (fun c => c.menuitem == 1)).length + 1 :=
  cart_add_appends_line fx 4 1 3 (by decide) (by decide)

/-- Claim C7: `mark_delivered` is monotonic — no call ever changes an
order's status from delivered back to placed (each surviving order keeps its
id and a delivered status stays delivered); and for a delivery-crew caller
whose queryset resolves the order with status placed, the first call
delivers it and a second call returns the already-delivered warning with
the store unchanged: exactly one state change. -/
theorem markDelivered_monotonic_one_shot (s : Store) (caller : User)
    (pk : Nat) :
    List.Forall₂
      (fun o o2 => o.id = o2.id ∧ (o.status = true → o2.status = true))
      s.orders (OrderViewSet.mark_delivered s caller pk).2.orders ∧
    (∀ o : Order, inGroup caller "Delivery crew" = true →
      findOrder (OrderViewSet.get_queryset s caller) pk = some o →
      o.status = false →
      (OrderViewSet.mark_delivered s caller pk).1
        = OrderViewSet.DeliverResult.delivered ∧
      findOrder (OrderViewSet.get_queryset
          (OrderViewSet.mark_delivered s caller pk).2 caller) pk
        = some { o with status := true } ∧
      OrderViewSet.mark_delivered
          (OrderViewSet.mark_delivered s caller pk).2 caller pk
        = (OrderViewSet.DeliverResult.alreadyDelivered,
           (OrderViewSet.mark_delivered s caller pk).2)) := by
  constructor
  · by_cases hc : inGroup caller "Delivery crew"
    · cases hf : findOrder (OrderViewSet.get_queryset s caller) pk with
      | none =>
        simp only [OrderViewSet.mark_delivered, hc, hf]
        exact List.forall₂_same.mpr (fun o _ => ⟨rfl, id⟩)
      | some o =>
        by_cases hst : o.status
        · simp only [OrderViewSet.mark_delivered, hc, hf, hst,
            Bool.not_true, Bool.false_eq_true, if_false, if_true]
          exact List.forall₂_same.mpr (fun o _ => ⟨rfl, id⟩)
        · have hb : o.status = false := by simpa using hst
          simp only [OrderViewSet.mark_delivered, hc, hf, hb,
            Bool.not_true, Bool.false_eq_true, if_false, updateOrder]
          apply forall₂_map_self
          intro o2
          by_cases h2 : o2.id == pk
          · simp [h2]
          · simp [h2]
    · have hc2 : inGroup caller "Delivery crew" = false := by simpa using hc
      simp only [OrderViewSet.mark_delivered, hc2, Bool.not_false, if_true]
      exact List.forall₂_same.mpr (fun o _ => ⟨rfl, id⟩)
  · intro o hc hf hst
    have hr1 : (OrderViewSet.mark_delivered s caller pk).1
        = OrderViewSet.DeliverResult.delivered := by
      simp [OrderViewSet.mark_delivered, hc, hf, hst]
    have hr2 : (OrderViewSet.mark_delivered s caller pk).2
        = updateOrder s pk (fun o2 => { o2 with status := true }) := by
      simp [OrderViewSet.mark_delivered, hc, hf, hst]
    have hid : (o.id == pk) = true := by
      have hf2 := hf
      unfold findOrder at hf2
      exact List.find?_some (p := fun o2 : Order => o2.id == pk) hf2
    have hfind2 : findOrder (OrderViewSet.get_queryset
        (updateOrder s pk (fun o2 => { o2 with status := true })) caller) pk
        = some { o with status := true } := by
      rw [get_queryset_update s caller pk
            (fun o2 => { o2 with status := true })
            (fun o2 => rfl) (fun o2 => rfl),
        findOrder_map_guard _ pk (fun o2 => { o2 with status := true })
            (fun o2 => rfl), hf]
      have hideq : o.id = pk := beq_iff_eq.mp hid
      simp [hideq]
    refine ⟨hr1, ?_, ?_⟩
    · rw [hr2]
      exact hfind2
    · rw [hr2]
      simp [OrderViewSet.mark_delivered, hc, hfind2]

/-- Witness for C7: delivery-crew user 2 marks order 2 (assigned to them,
placed) delivered; the first call succeeds and the second returns the
already-delivered warning with the store unchanged. -/
theorem markDelivered_monotonic_one_shot_witness :
    (OrderViewSet.mark_delivered fx crewA 2).1
      = OrderViewSet.DeliverResult.delivered ∧
    OrderViewSet.mark_delivered (OrderViewSet.mark_delivered fx crewA 2).2
        crewA 2
      = (OrderViewSet.DeliverResult.alreadyDelivered,
         (OrderViewSet.mark_delivered fx crewA 2).2) := by
  have h := (markDelivered_monotonic_one_shot fx crewA 2).2
    (Order.mk 2 4 (some 2) false 100) (by decide) (by decide) (by decide)
  exact ⟨h.1, h.2.2⟩

/-- Claim C3: the guarded assignment succeeds exactly when the caller holds
Manager, the order resolves in the caller's queryset with no delivery
assignee, and the target user resolves, holds Delivery crew and is not the
caller; each singly-violated precondition yields its specific error
(forbidden, order/user not found, already assigned, wrong role,
self-assignment) with the store unchanged on every failure; and after a
success the order carries the assignee and any well-formed second assign on
it returns already-assigned with the store unchanged. -/
theorem assign_order_spec (s : Store) (caller : User) (pk did : Nat) :
    ((OrderViewSet.assign_order s caller pk (some did)).1
        = OrderViewSet.AssignResult.assigned ↔
      (inGroup caller "Manager" = true ∧
       (findOrder (OrderViewSet.get_queryset s caller) pk).any
         (fun o => o.delivery_crew == none) = true ∧
       (findUser s did).any
         (fun u => inGroup u "Delivery crew" && !(u.id == caller.id)) = true)) ∧
    ((OrderViewSet.assign_order s caller pk (some did)).1
        ≠ OrderViewSet.AssignResult.assigned →
      (OrderViewSet.assign_order s caller pk (some did)).2 = s) ∧
    (inGroup caller "Manager" = false →
      (OrderViewSet.assign_order s caller pk (some did)).1
        = OrderViewSet.AssignResult.forbidden) ∧
    (inGroup caller "Manager" = true →
      findOrder (OrderViewSet.get_queryset s caller) pk = none →
      (OrderViewSet.assign_order s caller pk (some did)).1
        = OrderViewSet.AssignResult.orderNotFound) ∧
    (∀ o : Order, inGroup caller "Manager" = true →
      findOrder (OrderViewSet.get_queryset s caller) pk = some o →
      findUser s did = none →
      (OrderViewSet.assign_order s caller pk (some did)).1
        = OrderViewSet.AssignResult.userNotFound) ∧
    (∀ (o : Order) (u : User), inGroup caller "Manager" = true →
      findOrder (OrderViewSet.get_queryset s caller) pk = some o →
      findUser s did = some u → o.delivery_crew.isSome = true →
      (OrderViewSet.assign_order s caller pk (some did)).1
        = OrderViewSet.AssignResult.alreadyAssigned) ∧
    (∀ (o : Order) (u : User), inGroup caller "Manager" = true →
      findOrder (OrderViewSet.get_queryset s caller) pk = some o →
      findUser s did = some u → o.delivery_crew = none →
      inGroup u "Delivery crew" = false →
      (OrderViewSet.assign_order s caller pk (some did)).1
        = OrderViewSet.AssignResult.notDeliveryCrew) ∧
    (∀ (o : Order) (u : User), inGroup caller "Manager" = true →
      findOrder (OrderViewSet.get_queryset s caller) pk = some o →
      findUser s did = some u → o.delivery_crew = none →
      inGroup u "Delivery crew" = true → u.id = caller.id →
      (OrderViewSet.assign_order s caller pk (some did)).1
        = OrderViewSet.AssignResult.selfAssignment) ∧
    ((OrderViewSet.assign_order s caller pk (some did)).1
        = OrderViewSet.AssignResult.assigned →
      (findOrder (OrderViewSet.assign_order s caller pk (some did)).2.orders
          pk).map Order.delivery_crew = some (some did) ∧
      (∀ (did2 : Nat) (u2 : User), findUser s did2 = some u2 →
        OrderViewSet.assign_order
            (OrderViewSet.assign_order s caller pk (some did)).2 caller pk
            (some did2)
          = (OrderViewSet.AssignResult.alreadyAssigned,
             (OrderViewSet.assign_order s caller pk (some did)).2))) := by
  by_cases hm : inGroup caller "Manager"
  · cases ho : findOrder (OrderViewSet.get_queryset s caller) pk with
    | none =>
      simp [OrderViewSet.assign_order, hm, ho]
    | some o =>
      cases hu : findUser s did with
      | none =>
        simp [OrderViewSet.assign_order, hm, ho, hu]
      | some u =>
        cases hcrew : o.delivery_crew with
        | some a =>
          simp [OrderViewSet.assign_order, hm, ho, hu, hcrew]
        | none =>
          cases hrole : inGroup u "Delivery crew" with
          | false =>
            simp [OrderViewSet.assign_order, hm, ho, hu, hcrew, hrole]
          | true =>
            cases hself : u.id == caller.id with
            | true =>
              have hself2 : u.id = caller.id := beq_iff_eq.mp hself
              simp [OrderViewSet.assign_order, hm, ho, hu, hcrew, hrole,
                hself, hself2]
            | false =>
              have hq : OrderViewSet.get_queryset s caller = s.orders := by
                simp [OrderViewSet.get_queryset, hm]
              have ho2 : findOrder s.orders pk = some o := by
                rw [← hq]; exact ho
              have hid : (o.id == pk) = true := by
                have hf2 := ho2
                unfold findOrder at hf2
                exact List.find?_some (p := fun o2 : Order => o2.id == pk) hf2
              have hideq : o.id = pk := beq_iff_eq.mp hid
              have hr : OrderViewSet.assign_order s caller pk (some did)
                  = (OrderViewSet.AssignResult.assigned,
                     updateOrder s pk
                       (fun o2 => { o2 with delivery_crew := some did })) := by
                simp [OrderViewSet.assign_order, hm, ho, hu, hcrew, hrole,
                  hself]
              have hfind2 : findOrder (updateOrder s pk
                  (fun o2 => { o2 with delivery_crew := some did })).orders pk
                  = some { o with delivery_crew := some did } := by
                show findOrder (s.orders.map
                  (fun o2 => if o2.id == pk
                    then { o2 with delivery_crew := some did } else o2)) pk = _
                rw [findOrder_map_guard _ pk
                      (fun o2 => { o2 with delivery_crew := some did })
                      (fun o2 => rfl), ho2]
                simp [hideq]
              rw [hr]
              dsimp only
              refine ⟨by simp [hm, hcrew, hrole, hself], ?_, ?_, ?_, ?_,
                ?_, ?_, ?_, ?_⟩
              · intro hcontra
                exact absurd rfl hcontra
              · intro hmf
                rw [hmf] at hm
                exact absurd hm Bool.false_ne_true
              · intro _ hno
                exact absurd hno (by simp)
              · intro o2 _ _ hno
                exact absurd hno (by simp)
              · intro o2 u2 _ ho2x hu2x hsome
                obtain rfl : o = o2 := Option.some.inj ho2x
                rw [hcrew] at hsome
                exact absurd hsome (by simp)
              · intro o2 u2 _ ho2x hu2x _ hrx
                obtain rfl : u = u2 := Option.some.inj hu2x
                rw [hrole] at hrx
                simp at hrx
              · intro o2 u2 _ ho2x hu2x _ _ hsx
                obtain rfl : u = u2 := Option.some.inj hu2x
                rw [hsx] at hself
                simp at hself
              · intro _
                constructor
                · rw [hfind2]
                  rfl
                · intro did2 u2 hu2
                  have hq2 : OrderViewSet.get_queryset (updateOrder s pk
                      (fun o2 => { o2 with delivery_crew := some did }))
                      caller
                      = (updateOrder s pk
                        (fun o2 => { o2 with delivery_crew := some did })).orders := by
                    simp [OrderViewSet.get_queryset, hm]
                  have hfq : findOrder (OrderViewSet.get_queryset
                      (updateOrder s pk
                        (fun o2 => { o2 with delivery_crew := some did }))
                      caller) pk
                      = some { o with delivery_crew := some did } := by
                    rw [hq2]; exact hfind2
                  have hu2b : findUser (updateOrder s pk
                      (fun o2 => { o2 with delivery_crew := some did })) did2
                      = some u2 := hu2
                  simp [OrderViewSet.assign_order, hm, hfq, hu2b]
  · have hm2 : inGroup caller "Manager" = false := by simpa using hm
    simp [OrderViewSet.assign_order, hm2]

/-- Witness for C3: on the fixture, the manager assigns order 1 to
delivery-crew user 2 (success); repeating on the now-assigned order returns
already-assigned with the store unchanged; and assigning to customer 4
fails with the wrong-role error while leaving the store unchanged. -/
theorem assign_order_spec_witness :
    (OrderViewSet.assign_order fx mgrU 1 (some 2)).1
      = OrderViewSet.AssignResult.assigned ∧
    OrderViewSet.assign_order (OrderViewSet.assign_order fx mgrU 1 (some 2)).2
        mgrU 1 (some 3)
      = (OrderViewSet.AssignResult.alreadyAssigned,
         (OrderViewSet.assign_order fx mgrU 1 (some 2)).2) ∧
    (OrderViewSet.assign_order fx mgrU 1 (some 4)).1
      = OrderViewSet.AssignResult.notDeliveryCrew ∧
    (OrderViewSet.assign_order fx mgrU 1 (some 4)).2 = fx := by
  have h := assign_order_spec fx mgrU 1 2
  have hsucc : (OrderViewSet.assign_order fx mgrU 1 (some 2)).1
      = OrderViewSet.AssignResult.assigned :=
    h.1.mpr ⟨by decide, by decide, by decide⟩
  have h2 := (h.2.2.2.2.2.2.2.2 hsucc).2 3 crewB (by decide)
  have h4 := assign_order_spec fx mgrU 1 4
  have hrole := h4.2.2.2.2.2.2.1 (Order.mk 1 4 none false 2500) custU
    (by decide) (by decide) (by decide) (by decide) (by decide)
  have hunch := h4.2.1 (by rw [hrole]; decide)
  exact ⟨hsucc, h2, hrole, hunch⟩

end Restaurant
